import Mathlib

/-!
Verification of henVideoCompress (src/main.py), a batch video transcoder.

The program probes each video file in a directory, derives a rotation-aware
filter chain (optional transpose stage followed by a scale stage), builds a
fixed set of encode options, invokes an external encoder, restores the source
modification time on the destination, and tallies per-file successes.

The embedding below mirrors src/main.py line by line.  Pure computations
(the geometry/filter planner at lines 39-50 and the output-option dictionary
at lines 53-67) become Lean functions on Nat/Int/String.  Effectful steps
(probe, encode, os.utime) are modelled by recording their outcome in the
per-file input record; an exception that the Python code does not catch is
modelled as `Except.error`, while a caught exception becomes a normal return
value carrying a warning flag.
-/

namespace HenVideoCompress

/-- One probed stream record, the fields of `probe['streams'][i]` that
src/main.py reads: `codec_type`, `width`, `height`, `tags.rotate` and
`tags.creation_time` (the tags are optional, lines 39 and 66). -/
structure StreamInfo where
  codec_type : String
  width : Nat
  height : Nat
  rotate : Option Int
  creation_time : Option String
deriving Repr, DecidableEq

/-- Line 39: `rotation = int(video_stream.get('tags', {}).get('rotate', 0))`,
the rotation tag with default 0. -/
def get_rotation (s : StreamInfo) : Int :=
  s.rotate.getD 0

/-- Line 40: `is_rotated = rotation in (90, 270)`. -/
def is_rotated (rotation : Int) : Bool :=
  rotation == 90 || rotation == 270

/-- Lines 41-44: start from the probed `width`/`height` and swap the axes
when `is_rotated`.  Returns the corrected (displayed) width and height. -/
def corrected_dims (rotation : Int) (rawW rawH : Nat) : Nat × Nat :=
  if is_rotated rotation then (rawH, rawW) else (rawW, rawH)

/-- The inline `int(width/1.5)` of line 50.  The exact rational value of
`width / 1.5` is `2 * width / 3`, and Python `int` truncates toward zero,
which on a nonnegative value is the floor; `Nat` division is exactly that
floor.  (The source computes the quotient in double precision; 1.5 is exactly
representable and the rounding error is far below the 1/3 fractional gap for
every realistic pixel width, so the double computation realises the same
exact floor modelled here.) -/
def target_width (w : Nat) : Nat :=
  2 * w / 3

/-- Lines 47-50: build the `vf_filters` list from the probed dimensions.
Python `if rotation:` is truthiness, i.e. it fires for every nonzero
rotation; the transpose argument is `1` when rotation == 90 and `2`
otherwise.  The scale stage uses the post-swap width (halved) and the
post-swap height. -/
def vf_filters (rotation : Int) (rawW rawH : Nat) : List String :=
  let wh := corrected_dims rotation rawW rawH
  let scale_stage :=
    "scale=" ++ Nat.repr (target_width wh.1) ++ ":" ++ Nat.repr wh.2 ++
      ":force_original_aspect_ratio=decrease"
  if rotation == 0 then
    [scale_stage]
  else
    ("transpose=" ++ (if rotation == 90 then "1" else "2")) :: [scale_stage]

/-- The `output_kwargs` dictionary of lines 53-67.  Python dictionary keys
with punctuation (`c:v`, `metadata:s:v`, `disposition:v`, ...) become
underscored field names. -/
structure OutputKwargs where
  vf : String
  c_v : String
  crf : Nat
  preset : String
  movflags : String
  map_metadata : String
  metadata_s_v : String
  disposition_v : String
  disposition_a : String
  c_a : String
  metadata : String
deriving Repr, DecidableEq

/-- Lines 53-67: construct the encode options.  Every field other than `vf`
and `c_v` and `metadata` is a constant; `c_v` is selected purely from the
`use_hwaccel` flag; the video-stream metadata directive is always the literal
string rotate=0. -/
def output_kwargs (rotation : Int) (rawW rawH : Nat) (use_hwaccel : Bool)
    (creation_time : Option String) : OutputKwargs :=
  { vf := String.intercalate "," (vf_filters rotation rawW rawH)
    c_v := if use_hwaccel then "h264_qsv" else "libx264"
    crf := 18
    preset := "fast"
    movflags := "+faststart"
    map_metadata := "0"
    metadata_s_v := "rotate=0"
    disposition_v := "0"
    disposition_a := "0"
    c_a := "copy"
    metadata := "creation_time=" ++ creation_time.getD "" }

/-- Lines 10-17, the helper `preserve_file_dates`: it wraps the
`os.stat`/`os.utime` pair in `try ... except Exception`, prints a warning on
failure and always returns normally.  The argument records whether the
underlying timestamp operation succeeds; the result records whether the
warning line was printed.  (This helper is defined in src/main.py but is
never called: `process_video` calls `os.utime` directly at line 77.) -/
def preserve_file_dates (utime_ok : Bool) : Bool :=
  !utime_ok

/-- One input file as the pipeline observes it: the probed stream list plus
the outcomes of the two effectful steps of `process_video` (whether the
ffmpeg invocation at lines 69-75 succeeds, and whether the `os.utime` call
at line 77 succeeds). -/
structure ProbedFile where
  streams : List StreamInfo
  mtime : Nat
  encode_ok : Bool
  utime_ok : Bool
deriving Repr, DecidableEq

/-- Outcome of one `process_video` call that returned normally: the boolean
the function returns, and whether a warning/error line was printed. -/
structure ProcResult where
  success : Bool
  warned : Bool
deriving Repr, DecidableEq

/-- Line 32: select the first probed stream whose `codec_type` is video. -/
def find_video_stream (streams : List StreamInfo) : Option StreamInfo :=
  streams.find? (fun s => s.codec_type == "video")

/-- Lines 27-82, `process_video`.  The `try` block covers lines 30-78 but the
sole handler is `except ffmpeg.Error` (line 80):

* no video stream (lines 34-36): print a warning, return `False`;
* the ffmpeg invocation raises `ffmpeg.Error`: caught, error printed,
  return `False`;
* ffmpeg succeeds and `os.utime` (line 77) succeeds: return `True`;
* ffmpeg succeeds but `os.utime` raises (e.g. `OSError` on a permission
  problem): the handler does not match, so the exception propagates out of
  `process_video` uncaught — modelled as `Except.error`. -/
def process_video (use_hwaccel : Bool) (f : ProbedFile) :
    Except String ProcResult :=
  match find_video_stream f.streams with
  | none => Except.ok { success := false, warned := true }
  | some vs =>
      let rotation := get_rotation vs
      let _kwargs := output_kwargs rotation vs.width vs.height use_hwaccel
        vs.creation_time
      if f.encode_ok then
        if f.utime_ok then
          Except.ok { success := true, warned := false }
        else
          Except.error "OSError"
      else
        Except.ok { success := false, warned := true }

/-- Lines 104-117, the batch loop of `main`: process the files in order,
incrementing `success_count` exactly when `process_video` returns `True`.
An exception escaping `process_video` is not caught anywhere in `main`, so
it aborts the whole batch — modelled by propagating `Except.error`. -/
def run_batch (use_hwaccel : Bool) : List ProbedFile → Nat → Except String Nat
  | [], acc => Except.ok acc
  | f :: rest, acc =>
      match process_video use_hwaccel f with
      | Except.error e => Except.error e
      | Except.ok r =>
          run_batch use_hwaccel rest (if r.success then acc + 1 else acc)

/-- A 1920x1080 stream carrying a rotation-90 tag, as in spec scenario 1. -/
def stream_1920x1080_rot90 : StreamInfo :=
  { codec_type := "video", width := 1920, height := 1080,
    rotate := some 90, creation_time := none }

/-- A file whose probe, encode and timestamp steps all succeed. -/
def good_file : ProbedFile :=
  { streams := [stream_1920x1080_rot90], mtime := 0,
    encode_ok := true, utime_ok := true }

/-- A file containing only an audio stream, no video stream. -/
def streamless_file : ProbedFile :=
  { streams := [{ codec_type := "audio", width := 0, height := 0,
                  rotate := none, creation_time := none }],
    mtime := 0, encode_ok := true, utime_ok := true }

/-- A file whose encode succeeds but whose destination timestamp-set call
fails (e.g. a permission error on the output path). -/
def utime_fail_file : ProbedFile :=
  { streams := [stream_1920x1080_rot90], mtime := 0,
    encode_ok := true, utime_ok := false }

/-- C4: for every raw width and height, rotations 90 and 270 swap the axes
and rotations 0 and 180 leave the dimensions unchanged. -/
theorem c4_corrected_dims (rawW rawH : Nat) :
    corrected_dims 90 rawW rawH = (rawH, rawW) ∧
    corrected_dims 270 rawW rawH = (rawH, rawW) ∧
    corrected_dims 0 rawW rawH = (rawW, rawH) ∧
    corrected_dims 180 rawW rawH = (rawW, rawH) :=
  ⟨rfl, rfl, rfl, rfl⟩

/-- C7: the built encode options set the video-stream rotation metadata tag
to 0, for every input file and every rotation value. -/
theorem c7_rotation_tag_reset (rotation : Int) (rawW rawH : Nat)
    (use_hwaccel : Bool) (creation_time : Option String) :
    (output_kwargs rotation rawW rawH use_hwaccel creation_time).metadata_s_v
      = "rotate=0" :=
  rfl

/-- C8: the selected video codec is the hardware identifier exactly when the
hardware-acceleration flag is true, and the software identifier otherwise —
exhaustively over the boolean flag, with no dependence on anything else. -/
theorem c8_codec_selection (rotation : Int) (rawW rawH : Nat)
    (creation_time : Option String) :
    (∀ use_hwaccel : Bool,
      (output_kwargs rotation rawW rawH use_hwaccel creation_time).c_v =
        if use_hwaccel then "h264_qsv" else "libx264") ∧
    (∀ use_hwaccel : Bool,
      ((output_kwargs rotation rawW rawH use_hwaccel creation_time).c_v =
        "h264_qsv" ↔ use_hwaccel = true)) := by
  constructor
  · intro hw
    cases hw <;> rfl
  · intro hw
    cases hw <;> simp [output_kwargs]

/-- C1 counterexample: for rotation metadata 180 the code does NOT produce a
scale-only chain — `if rotation:` at line 48 is truthy for 180, so a
transpose stage (transpose=2) is emitted ahead of the scale stage.  On a
1920x1080 input the chain has two stages and starts with the transpose. -/
theorem c1_counterexample :
    (vf_filters 180 1920 1080).length = 2 ∧
    (vf_filters 180 1920 1080).head? = some "transpose=2" ∧
    vf_filters 180 1920 1080 ≠
      ["scale=1280:1080:force_original_aspect_ratio=decrease"] := by
  refine ⟨rfl, rfl, ?_⟩
  decide

/-- C1 amended: for rotation metadata 180 the planner emits a transpose
stage with argument 2 (counter-clockwise) followed by the scale stage; the
dimensions are not swapped, so the scale stage uses the raw width halved and
the raw height. -/
theorem c1_rotation180_chain (rawW rawH : Nat) :
    vf_filters 180 rawW rawH =
      ["transpose=2",
       "scale=" ++ Nat.repr (target_width rawW) ++ ":" ++ Nat.repr rawH ++
         ":force_original_aspect_ratio=decrease"] :=
  rfl

/-- C3 counterexample: for the out-of-range rotation value 45 the code does
not fail at all — it produces a filter plan (no validation exists anywhere
in src/main.py), treating 45 like any nonzero non-90 rotation. -/
theorem c3_counterexample :
    vf_filters 45 1920 1080 =
      ["transpose=2", "scale=1280:1080:force_original_aspect_ratio=decrease"] :=
  rfl

/-- C3 amended: for every rotation value other than 0, 90 and 270 (hence for
every value outside CLAIMS set 0/90/180/270, such as 45) the planner raises
no error; it produces the plan with no dimension swap and a transpose=2
stage before the scale stage. -/
theorem c3_out_of_range_plan (rotation : Int) (rawW rawH : Nat)
    (h0 : rotation ≠ 0) (h90 : rotation ≠ 90) (h270 : rotation ≠ 270) :
    vf_filters rotation rawW rawH =
      ["transpose=2",
       "scale=" ++ Nat.repr (target_width rawW) ++ ":" ++ Nat.repr rawH ++
         ":force_original_aspect_ratio=decrease"] := by
  simp [vf_filters, corrected_dims, is_rotated, h0, h90, h270]

/-- Witness for C3 amended at the concrete out-of-range rotation 300. -/
theorem c3_out_of_range_plan_witness :
    vf_filters 300 600 400 =
      ["transpose=2", "scale=400:400:force_original_aspect_ratio=decrease"] :=
  c3_out_of_range_plan 300 600 400 (by decide) (by decide) (by decide)

/-- C5: for every positive corrected width the computed target width is the
floor of the exact rational quotient width / 1.5, and it is strictly smaller
than the corrected width. -/
theorem c5_target_width_floor (w : Nat) (hw : 0 < w) :
    target_width w = Nat.floor ((w : ℚ) / (3 / 2)) ∧ target_width w < w := by
  constructor
  · have h1 : ((w : ℚ) / (3 / 2)) = ((2 * w : ℕ) : ℚ) / ((3 : ℕ) : ℚ) := by
      push_cast
      ring
    rw [h1, Nat.floor_div_nat, Nat.floor_natCast]
    rfl
  · have h3 : (0 : Nat) < 3 := by decide
    rw [target_width, Nat.div_lt_iff_lt_mul h3]
    omega

/-- Witness for C5 at the concrete corrected width 1920. -/
theorem c5_target_width_floor_witness :
    target_width 1920 = Nat.floor ((1920 : ℚ) / (3 / 2)) ∧
    target_width 1920 < 1920 :=
  c5_target_width_floor 1920 (by decide)

/-- C6: for rotation 90 the chain is the clockwise transpose stage
(transpose=1) followed by a scale stage whose height is the post-swap height
(the raw width) with the decrease aspect policy; in particular a 1920x1080
input yields corrected dimensions 1080x1920, target width 720 and the chain
[transpose=1, scale=720:1920:decrease]. -/
theorem c6_rotation90_chain :
    (∀ rawW rawH : Nat,
      vf_filters 90 rawW rawH =
        ["transpose=1",
         "scale=" ++ Nat.repr (target_width rawH) ++ ":" ++ Nat.repr rawW ++
           ":force_original_aspect_ratio=decrease"]) ∧
    corrected_dims 90 1920 1080 = (1080, 1920) ∧
    target_width 1080 = 720 ∧
    vf_filters 90 1920 1080 =
      ["transpose=1", "scale=720:1920:force_original_aspect_ratio=decrease"] :=
  ⟨fun _ _ => rfl, rfl, rfl, rfl⟩

/-- C2 (code bug): when the encode succeeds but the destination
timestamp-set call fails, the exception is NOT caught — `process_video`
wraps `os.utime` (line 77) in a `try` whose only handler is
`except ffmpeg.Error`, so the error propagates, the batch aborts and no
success tally is produced; the file is not counted at all (and certainly not
as a success).  The repository does contain a helper implementing the
claimed catch-and-warn policy, `preserve_file_dates`, but `process_video`
never calls it: the last conjunct shows that the helper, on a failing
timestamp operation, returns normally with the warning flag set. -/
theorem c2_utime_failure_uncaught :
    process_video false utime_fail_file = Except.error "OSError" ∧
    run_batch false [utime_fail_file] 0 = Except.error "OSError" ∧
    preserve_file_dates false = true :=
  ⟨rfl, rfl, rfl⟩

/-- C9: a probed file with no video stream is skipped with a warning and
returns unsuccessful (for any hardware flag), and in the concrete two-file
batch of spec scenario 4 — one good file, one streamless file — the final
tally is 1 success out of the 2 files. -/
theorem c9_no_video_stream :
    (∀ (use_hwaccel : Bool) (f : ProbedFile),
      find_video_stream f.streams = none →
        process_video use_hwaccel f =
          Except.ok { success := false, warned := true }) ∧
    run_batch false [good_file, streamless_file] 0 = Except.ok 1 := by
  constructor
  · intro hw f h
    simp [process_video, h]
  · rfl

/-- Witness for C9 at the concrete streamless file. -/
theorem c9_no_video_stream_witness :
    process_video true streamless_file =
      Except.ok { success := false, warned := true } ∧
    run_batch false [good_file, streamless_file] 0 = Except.ok 1 :=
  ⟨c9_no_video_stream.1 true streamless_file rfl, c9_no_video_stream.2⟩

/-- Helper for C10: the success accumulator grows by at most one per
processed file, so a completed batch reports at most the starting
accumulator plus the number of files. -/
theorem run_batch_le (use_hwaccel : Bool) :
    ∀ (files : List ProbedFile) (acc n : Nat),
      run_batch use_hwaccel files acc = Except.ok n →
        n ≤ acc + files.length := by
  intro files
  induction files with
  | nil =>
      intro acc n h
      simp [run_batch] at h
      omega
  | cons f rest ih =>
      intro acc n h
      rw [run_batch] at h
      cases hpv : process_video use_hwaccel f with
      | error e =>
          rw [hpv] at h
          exact absurd h (by simp)
      | ok r =>
          rw [hpv] at h
          have hb := ih (if r.success then acc + 1 else acc) n h
          by_cases hs : r.success <;> simp [hs] at hb <;> simp <;> omega

/-- C10: batch-loop invariant — whatever accumulator value the loop starts
from, a completed run reports at most that start plus the number of files
processed (each file increments the counter at most once); in particular a
batch started at zero reports at most the total number of matched files. -/
theorem c10_success_count_bound :
    (∀ (use_hwaccel : Bool) (files : List ProbedFile) (acc n : Nat),
      run_batch use_hwaccel files acc = Except.ok n →
        n ≤ acc + files.length) ∧
    (∀ (use_hwaccel : Bool) (files : List ProbedFile) (n : Nat),
      run_batch use_hwaccel files 0 = Except.ok n → n ≤ files.length) := by
  refine ⟨run_batch_le, ?_⟩
  intro hw files n h
  have hb := run_batch_le hw files 0 n h
  omega

/-- Witness for C10 at the concrete two-file batch. -/
theorem c10_success_count_bound_witness :
    (1 : Nat) ≤ [good_file, streamless_file].length :=
  c10_success_count_bound.2 false [good_file, streamless_file] 1 rfl

end HenVideoCompress
